import Mathlib

/-
Verification development for the solv-scrapper repository.

This file gives a shallow embedding, in Lean 4, of the record-reconciliation
core of the repository (field/date normalization, the pending-set matcher in
monitor_patient_form.py, the JSON-log merge `update_patient_emr_id`, the
database upsert in `save_patient_to_db` / `insert_patients`, the network
traffic watchers, the timeout sweep in scraper.py, and the lookup endpoint in
api.py), together with theorems settling the specification claims about them.

Python conventions are modelled explicitly:
  - Python values flowing through duck-typed code are a `PyVal` inductive;
    truthiness, `dict.get`, `or`-chains and `str()` are modelled on it.
  - Machine behaviour that raises (AttributeError/TypeError/IndexError on
    unexpected shapes) is modelled with `Except Unit`.
  - `datetime.strptime` for the date formats used by the code is modelled by
    the component patterns CPython compiles for %Y/%m/%d plus calendar
    validation, and `strftime` by zero-padded rendering.
-/

/-- Whitespace characters removed by Python `str.strip()`. -/
def isPyWs (c : Char) : Bool :=
  c == ' ' || c == '\t' || c == '\n' || c == '\r' || c == Char.ofNat 11 || c == Char.ofNat 12

/-- Python `str.strip()`: drop leading and trailing whitespace. -/
def pyStrip (s : String) : String :=
  String.mk (((s.data.dropWhile isPyWs).reverse.dropWhile isPyWs).reverse)

/-- `l` starts with `p` (character lists). -/
def startsWithL : List Char → List Char → Bool
  | _, [] => true
  | [], _ :: _ => false
  | a :: as, b :: bs => a == b && startsWithL as bs

/-- `p` occurs as a contiguous substring of `h` (character lists). -/
def containsL (p : List Char) : List Char → Bool
  | [] => startsWithL [] p
  | c :: t => startsWithL (c :: t) p || containsL p t

/-- Python `pat in hay` for strings. -/
def strContains (hay pat : String) : Bool :=
  containsL pat.data hay.data

/-- Numeric value of a digit string (only used after an all-digits check). -/
def digitsVal (s : String) : Nat :=
  s.data.foldl (fun a c => a * 10 + (c.toNat - 48)) 0

/-- Nonempty and all characters are ASCII digits. -/
def digitsOnly (s : String) : Bool :=
  decide (1 ≤ s.length) && s.data.all Char.isDigit

/-- Split a character list at every occurrence of `sep` (Python `str.split(sep)` /
`re.split` on a single character: empty pieces are kept). -/
def splitCharAux (sep : Char) : List Char → List (List Char)
  | [] => [[]]
  | c :: t =>
    let r := splitCharAux sep t
    if c == sep then [] :: r
    else match r with
      | [] => [[c]]
      | h :: t2 => (c :: h) :: t2

/-- Split a string at every occurrence of the character `sep`. -/
def splitChar (sep : Char) (s : String) : List String :=
  (splitCharAux sep s.data).map String.mk

/-- A 1-or-2-digit component whose value lies in `[lo, hi]`, exactly the strings
matched by the `%m` / `%d` regular expressions CPython's strptime compiles
(`1[0-2]|0[1-9]|[1-9]` resp. `3[01]|[12]\d|0[1-9]|[1-9]`). -/
def comp2Ok (s : String) (lo hi : Nat) : Bool :=
  digitsOnly s && decide (s.length ≤ 2) && decide (lo ≤ digitsVal s) && decide (digitsVal s ≤ hi)

/-- Gregorian leap year, as checked by `datetime`. -/
def isLeap (y : Nat) : Bool :=
  y % 4 == 0 && (y % 100 != 0 || y % 400 == 0)

/-- Days in a month, as validated by the `datetime` constructor. -/
def daysInMonth (y m : Nat) : Nat :=
  if m == 2 then (if isLeap y then 29 else 28)
  else if m == 4 || m == 6 || m == 9 || m == 11 then 30
  else 31

/-- Field order of a date format string. -/
inductive DOrder | ymd | mdy | dmy
deriving DecidableEq

/-- One of the `%?-%?-%?` date formats used by `normalize_date`: a separator
character and the order of the year/month/day fields. -/
structure DFmt where
  sep : Char
  ord : DOrder
deriving DecidableEq

/-- `datetime.strptime(s, fmt)` restricted to the five formats `normalize_date`
tries: the string must split on the separator into exactly three components
matching the %Y (exactly four digits), %m and %d patterns, and the triple must
be a valid calendar date (strptime builds a `datetime`, which validates). -/
def strptimeDate (f : DFmt) (s : String) : Option (Nat × Nat × Nat) :=
  match splitChar f.sep s with
  | [a, b, c] =>
    let (ys, ms, ds) :=
      match f.ord with
      | .ymd => (a, b, c)
      | .mdy => (c, a, b)
      | .dmy => (c, b, a)
    if digitsOnly ys && decide (ys.length = 4) && comp2Ok ms 1 12 && comp2Ok ds 1 31 then
      let y := digitsVal ys
      let m := digitsVal ms
      let d := digitsVal ds
      if decide (1 ≤ y) && decide (d ≤ daysInMonth y m) then some (y, m, d) else none
    else none
  | _ => none

/-- Zero-pad a number to `w` digits. -/
def padNum (n w : Nat) : String :=
  let s := toString n
  String.mk (List.replicate (w - s.length) (Char.ofNat 48)) ++ s

/-- `dt.strftime(%Y-%m-%d)` for a parsed (year, month, day) triple. -/
def renderYmd : Nat × Nat × Nat → String
  | (y, m, d) => padNum y 4 ++ "-" ++ padNum m 2 ++ "-" ++ padNum d 2

/-- The fixed ordered format list of `normalize_date`
(save_to_db.py lines 61-67 and monitor_patient_form.py lines 102-108):
%Y-%m-%d, %m/%d/%Y, %m-%d-%Y, %d/%m/%Y, %d-%m-%Y. -/
def dateFormats : List DFmt :=
  [⟨'-', .ymd⟩, ⟨'/', .mdy⟩, ⟨'-', .mdy⟩, ⟨'/', .dmy⟩, ⟨'-', .dmy⟩]

/-- `normalize_date` (save_to_db.py lines 53-77, duplicated in
monitor_patient_form.py lines 94-117): empty/blank input yields None; otherwise
the stripped string is tried against each format in order and the first
successful parse is rendered as YYYY-MM-DD; if every format fails the result is
None.  All `ValueError`s are caught by the `for`/`try` loop, so the function
never raises on string input; totality of this Lean function models that. -/
def normalize_date (s : String) : Option String :=
  if s == "" || pyStrip s == "" then none
  else dateFormats.findSome? (fun f => (strptimeDate f (pyStrip s)).map renderYmd)

-- Parsing the empty string fails for every format (the split yields one piece).
theorem strptimeDate_empty (f : DFmt) : strptimeDate f "" = none := rfl

theorem pyStrip_empty : pyStrip "" = "" := rfl

/-- C7: `normalize_date` tries the formats YYYY-MM-DD, MM/DD/YYYY, MM-DD-YYYY,
DD/MM/YYYY, DD-MM-YYYY in that fixed order and returns the first successful
parse rendered as YYYY-MM-DD — if the formats before position `i` in the list
all fail on the stripped input and the format at position `i` parses it, the
result is that parse rendered — so that "01/15/1990" yields "1990-01-15"; and
for every input matching none of the formats (such as "1990-15-01") it returns
None (and, being modelled by a total function, never raises). -/
theorem c7_normalize_date_first_format_wins :
    normalize_date "01/15/1990" = some "1990-01-15" ∧
    normalize_date "1990-15-01" = none ∧
    (∀ s : String, (∀ f ∈ dateFormats, strptimeDate f (pyStrip s) = none) →
      normalize_date s = none) ∧
    (∀ (s : String) (l1 : List DFmt) (f : DFmt) (l2 : List DFmt),
      dateFormats = l1 ++ f :: l2 →
      (∀ g ∈ l1, strptimeDate g (pyStrip s) = none) →
      ∀ ymd, strptimeDate f (pyStrip s) = some ymd →
        normalize_date s = some (renderYmd ymd)) := by
  refine ⟨by decide, by decide, ?_, ?_⟩
  · intro s h
    unfold normalize_date
    split
    · rfl
    · rw [List.findSome?_eq_none_iff]
      intro f hf
      rw [h f hf]
      rfl
  · intro s l1 f l2 hdec hnone ymd hsome
    have hne : pyStrip s ≠ "" := by
      intro he
      rw [he] at hsome
      rw [strptimeDate_empty] at hsome
      exact Option.noConfusion hsome
    have hs : s ≠ "" := by
      intro he
      subst he
      exact hne pyStrip_empty
    unfold normalize_date
    rw [if_neg (by simp [hs, hne])]
    rw [hdec]
    clear hdec
    induction l1 with
    | nil =>
      simp [List.findSome?, hsome]
    | cons g gs ih =>
      have hg : strptimeDate g (pyStrip s) = none := hnone g (by simp)
      simp only [List.cons_append, List.findSome?, hg, Option.map_none']
      exact ih (fun x hx => hnone x (by simp [hx]))

/-- Witness for C7: the first-success clause applied at the concrete input
"2000-02-29" with the empty prefix of formats. -/
theorem c7_witness :
    normalize_date "2000-02-29" = some (renderYmd (2000, 2, 29)) :=
  c7_normalize_date_first_format_wins.2.2.2 "2000-02-29" [] ⟨'-', .ymd⟩
    [⟨'/', .mdy⟩, ⟨'-', .mdy⟩, ⟨'/', .dmy⟩, ⟨'-', .dmy⟩] rfl
    (by intro g hg; exact absurd hg (by simp)) (2000, 2, 29) (by decide)

/-- ASCII lower-casing, character by character (Python `str.lower()` on the
ASCII inputs this code compares; defined directly on the character list so
that it evaluates by kernel reduction). -/
def toLowerStr (s : String) : String :=
  String.mk (s.data.map (fun c => if c.toNat ≥ 65 && c.toNat ≤ 90 then Char.ofNat (c.toNat + 32) else c))

/-- ASCII upper-casing (Python `str.upper()` on ASCII inputs). -/
def toUpperStr (s : String) : String :=
  String.mk (s.data.map (fun c => if c.toNat ≥ 97 && c.toNat ≤ 122 then Char.ofNat (c.toNat - 32) else c))

/-- Python `.lower().strip()` as applied to candidate name fields at
monitor_patient_form.py lines 989-995. -/
def lowerStrip (s : String) : String := pyStrip (toLowerStr s)

/-- Phone normalization at monitor_patient_form.py lines 1004-1005: strip
`+`, spaces, dashes and parentheses. -/
def normPhone (s : String) : String :=
  String.mk (s.data.filter (fun ch => !(ch == '+' || ch == ' ' || ch == '-' || ch == '(' || ch == ')')))

/-- A pending patient entry as read by the matcher loop
(monitor_patient_form.py lines 978-1005): the fields are accessed with
`pending.get(key, '')`, so a missing field is the empty string, and
`pending.get('emr_id')` is falsy exactly when the stored string is empty. -/
structure PendingP where
  legalFirstName : String
  legalLastName : String
  mobilePhone : String
  emr_id : String
deriving DecidableEq

/-- The partial identity accompanying an extracted EMR ID
(monitor_patient_form.py lines 933-971 and 999-1000): best-effort first/last
name strings (empty when absent) and, when the response carried a truthy
booking object, its `phone` value. -/
structure CandidateInfo where
  firstName : String
  lastName : String
  apiPhone : Option String
deriving DecidableEq

/-- Name comparison of the matcher (monitor_patient_form.py lines 986-995):
both names, else first only, else last only, else no match; `pendingFirst` and
`pendingLast` are the already-stripped pending values. -/
def nameMatchB (c : CandidateInfo) (pendingFirst pendingLast : String) : Bool :=
  if !(c.firstName == "") && !(c.lastName == "") then
    toLowerStr pendingFirst == lowerStrip c.firstName
      && toLowerStr pendingLast == lowerStrip c.lastName
  else if !(c.firstName == "") then
    toLowerStr pendingFirst == lowerStrip c.firstName
  else if !(c.lastName == "") then
    toLowerStr pendingLast == lowerStrip c.lastName
  else false

/-- Phone comparison of the matcher (monitor_patient_form.py lines 997-1007):
requires a truthy booking object, both stripped phones nonempty, and equal
nonempty normalized forms. -/
def phoneMatchB (c : CandidateInfo) (p : PendingP) : Bool :=
  match c.apiPhone with
  | none => false
  | some rawPhone =>
    let api := pyStrip rawPhone
    let pend := pyStrip p.mobilePhone
    if !(api == "") && !(pend == "") then
      let an := normPhone api
      let pn := normPhone pend
      !(an == "") && !(pn == "") && an == pn
    else false

/-- `len([p for p in pending_patients if not p.get('emr_id')])`
(monitor_patient_form.py line 1013). -/
def countUnbound (ps : List PendingP) : Nat :=
  (ps.filter (fun p => p.emr_id == "")).length

/-- One iteration's `final_match` decision (monitor_patient_form.py lines
1009-1014): name match, or phone match with at least one candidate name field
present, or the singleton-fallback when exactly one unbound record exists. -/
def finalMatchStep (c : CandidateInfo) (p : PendingP) (cnt : Nat) : Bool :=
  let nm := nameMatchB c (pyStrip p.legalFirstName) (pyStrip p.legalLastName)
  let pm := phoneMatchB c p
  (nm || (pm && (!(c.firstName == "") || !(c.lastName == "")))) || cnt == 1

/-- The matcher loop over the pending list (monitor_patient_form.py lines
978-1030): entries that already carry an EMR ID are skipped; the first entry
whose `final_match` holds is bound (its index is returned) and the loop breaks.
`cnt` is the number of unbound entries of the whole list, which is what the
singleton rule consults on each iteration. -/
def loopMatchAux (c : CandidateInfo) (cnt : Nat) : List PendingP → Nat → Option Nat
  | [], _ => none
  | p :: rest, i =>
    if !(p.emr_id == "") then loopMatchAux c cnt rest (i + 1)
    else if finalMatchStep c p cnt then some i
    else loopMatchAux c cnt rest (i + 1)

def loopMatch (c : CandidateInfo) (ps : List PendingP) : Option Nat :=
  loopMatchAux c (countUnbound ps) ps 0

/-- The most-recent fallback (monitor_patient_form.py lines 1032-1042):
if the loop bound nothing, the last entry still lacking an EMR ID is bound. -/
def lastUnboundAux : List PendingP → Nat → Option Nat → Option Nat
  | [], _, acc => acc
  | p :: rest, i, acc =>
    lastUnboundAux rest (i + 1) (if p.emr_id == "" then some i else acc)

def lastUnbound (ps : List PendingP) : Option Nat :=
  lastUnboundAux ps 0 none

/-- The full per-candidate matching pass: loop with its strategies, then the
most-recent fallback.  Returns the index of the pending entry that receives the
extracted EMR ID, if any. -/
def matchCandidate (c : CandidateInfo) (ps : List PendingP) : Option Nat :=
  match loopMatch c ps with
  | some i => some i
  | none => lastUnbound ps

/-- Predicate for an unbound pending record whose first and last name equal the
candidate's case-insensitively — the exact-name criterion of the matcher. -/
def exactNamePred (c : CandidateInfo) (p : PendingP) : Bool :=
  p.emr_id == "" && toLowerStr (pyStrip p.legalFirstName) == lowerStrip c.firstName
    && toLowerStr (pyStrip p.legalLastName) == lowerStrip c.lastName

/-- First index at or after `i` whose element satisfies `p` — the specification
function the amended exact-name claim compares the matcher loop against. -/
def findIdxFrom (p : PendingP → Bool) : List PendingP → Nat → Option Nat
  | [], _ => none
  | x :: xs, i => if p x then some i else findIdxFrom p xs (i + 1)


-- With no candidate name fields at all, and an unbound count other than one,
-- no iteration of the matcher loop can fire: the name branch is vacuous, the
-- phone branch requires a name field to be present, and the singleton rule
-- requires exactly one unbound entry.
theorem loopMatchAux_no_names (c : CandidateInfo) (hF : c.firstName = "")
    (hL : c.lastName = "") (cnt : Nat) (hcnt : cnt ≠ 1) :
    ∀ (ps : List PendingP) (i : Nat), loopMatchAux c cnt ps i = none := by
  intro ps
  induction ps with
  | nil => intro i; rfl
  | cons p rest ih =>
    intro i
    have hstep : finalMatchStep c p cnt = false := by
      simp [finalMatchStep, nameMatchB, phoneMatchB, hF, hL, hcnt]
    by_cases hb : p.emr_id = ""
    · simp [loopMatchAux, hb, hstep, ih]
    · simp [loopMatchAux, hb, ih]

/-- C3 (amended): phone agreement contributes to a loop-stage bind only when
the candidate carries at least one nonempty name field — which need not match
the pending record (see the counterexample) — so when the candidate carries no
name data at all and more than one (or zero) unbound pending records exist, the
matcher loop (exact/partial name, phone, and singleton strategies) binds
nothing; any bind then happens only through the most-recent fallback. -/
theorem c3_phone_needs_name_presence (c : CandidateInfo) (ps : List PendingP)
    (hF : c.firstName = "") (hL : c.lastName = "")
    (hcnt : countUnbound ps ≠ 1) :
    loopMatch c ps = none :=
  loopMatchAux_no_names c hF hL (countUnbound ps) hcnt ps 0

/-- Witness for C3 (amended): a candidate with a matching phone but no name
data, against two unbound pending records, is not bound by the loop. -/
theorem c3_witness :
    loopMatch ⟨"", "", some "+555 111"⟩
      [⟨"Ann", "Lee", "555-111", ""⟩, ⟨"Bob", "Kim", "555-222", ""⟩] = none :=
  c3_phone_needs_name_presence ⟨"", "", some "+555 111"⟩
    [⟨"Ann", "Lee", "555-111", ""⟩, ⟨"Bob", "Kim", "555-222", ""⟩]
    rfl rfl (by decide)

/-- Counterexample to C3 as stated: with two unbound pending records, a
candidate whose normalized phone equals the first record's normalized phone and
whose only name field ("Zed") matches nothing is nevertheless bound — by the
loop itself, to the phone-matching record — even though no name field of the
candidate matches that record.  Phone agreement plus a merely *present*
(non-matching) name field suffices. -/
theorem c3_counterexample :
    loopMatch ⟨"Zed", "", some "+555 111"⟩
      [⟨"Ann", "Lee", "555-111", ""⟩, ⟨"Bob", "Kim", "555-222", ""⟩] = some 0 ∧
    matchCandidate ⟨"Zed", "", some "+555 111"⟩
      [⟨"Ann", "Lee", "555-111", ""⟩, ⟨"Bob", "Kim", "555-222", ""⟩] = some 0 ∧
    countUnbound [⟨"Ann", "Lee", "555-111", ""⟩, ⟨"Bob", "Kim", "555-222", ""⟩] = 2 ∧
    normPhone (pyStrip "+555 111") = normPhone (pyStrip "555-111") ∧
    nameMatchB ⟨"Zed", "", some "+555 111"⟩ (pyStrip "Ann") (pyStrip "Lee") = false := by
  decide

-- With both candidate names present, no booking phone, and an unbound count
-- other than one, the matcher loop fires exactly on the first unbound entry
-- with case-insensitively equal first and last names.
theorem loopMatchAux_exact (c : CandidateInfo) (hF : ¬ c.firstName = "")
    (hL : ¬ c.lastName = "") (hP : c.apiPhone = none) (cnt : Nat) (hcnt : cnt ≠ 1) :
    ∀ (ps : List PendingP) (i : Nat),
      loopMatchAux c cnt ps i = findIdxFrom (exactNamePred c) ps i := by
  intro ps
  induction ps with
  | nil => intro i; rfl
  | cons p rest ih =>
    intro i
    have hpm : phoneMatchB c p = false := by
      simp [phoneMatchB, hP]
    by_cases hb : p.emr_id = ""
    · have hstep : finalMatchStep c p cnt
          = (toLowerStr (pyStrip p.legalFirstName) == lowerStrip c.firstName
             && toLowerStr (pyStrip p.legalLastName) == lowerStrip c.lastName) := by
        simp [finalMatchStep, nameMatchB, hpm, hF, hL, hcnt]
      have hpred : exactNamePred c p
          = (toLowerStr (pyStrip p.legalFirstName) == lowerStrip c.firstName
             && toLowerStr (pyStrip p.legalLastName) == lowerStrip c.lastName) := by
        simp [exactNamePred, hb]
      simp only [loopMatchAux, findIdxFrom, hb, hstep, hpred, ih]
      simp [ih]
    · have hpred : exactNamePred c p = false := by
        simp [exactNamePred, hb]
      simp [loopMatchAux, findIdxFrom, hb, hpred, ih]

/-- C4 (amended): for a candidate carrying both a first and a last name (and no
booking phone), when the number of unbound pending records is not exactly one,
the matcher binds the candidate to the FIRST unbound pending record with
case-insensitively equal first and last name — uniqueness of that record is not
required (see the counterexample).  In particular, for pending records
[{John,Doe}, {Jane,Doe}] and candidate {John,Doe} it binds the first entry
only (witness). -/
theorem c4_exact_name_binds_first_match (c : CandidateInfo) (ps : List PendingP)
    (hF : c.firstName ≠ "") (hL : c.lastName ≠ "") (hP : c.apiPhone = none)
    (hcnt : countUnbound ps ≠ 1) :
    loopMatch c ps = findIdxFrom (exactNamePred c) ps 0 :=
  loopMatchAux_exact c hF hL hP (countUnbound ps) hcnt ps 0

/-- Witness for C4 (amended): the John/Jane Doe pending list from the claim —
the candidate {John,Doe} is bound to the first entry (index 0). -/
theorem c4_witness :
    loopMatch ⟨"John", "Doe", none⟩ [⟨"John", "Doe", "", ""⟩, ⟨"Jane", "Doe", "", ""⟩]
      = findIdxFrom (exactNamePred ⟨"John", "Doe", none⟩)
          [⟨"John", "Doe", "", ""⟩, ⟨"Jane", "Doe", "", ""⟩] 0 ∧
    findIdxFrom (exactNamePred ⟨"John", "Doe", none⟩)
      [⟨"John", "Doe", "", ""⟩, ⟨"Jane", "Doe", "", ""⟩] 0 = some 0 :=
  ⟨c4_exact_name_binds_first_match ⟨"John", "Doe", none⟩
      [⟨"John", "Doe", "", ""⟩, ⟨"Jane", "Doe", "", ""⟩]
      (by decide) (by decide) rfl (by decide),
   by decide⟩

/-- Counterexample to C4 as stated: two unbound pending records BOTH have
case-insensitively equal first and last name ("John Doe"), so "exactly one
matching record" fails, yet the matcher still binds the candidate (to the first
of them) instead of declining. -/
theorem c4_counterexample :
    matchCandidate ⟨"John", "Doe", none⟩
      [⟨"John", "Doe", "", ""⟩, ⟨"John", "Doe", "", ""⟩] = some 0 ∧
    (List.filter (exactNamePred ⟨"John", "Doe", none⟩)
      [⟨"John", "Doe", "", ""⟩, ⟨"John", "Doe", "", ""⟩]).length = 2 := by
  decide

/-- State of the scraper's background monitoring loop (scraper.py lines
910-913): `monitoring` models `monitoring_patients` as (submission_id,
submission_time-in-seconds) pairs, and `processed` models
`processed_patient_ids`, which only ever grows when a record is saved. -/
structure MonState where
  monitoring : List (String × Int)
  processed : List String
deriving DecidableEq

/-- `emr_wait_max = 90` (scraper.py line 917). -/
def emrWaitMax : Int := 90

/-- The timeout sweep (scraper.py lines 1752-1760): every monitored entry whose
wait time `now - submission_time` has reached `emr_wait_max` is deleted from
`monitoring_patients`; the branch performs no save — it does not touch
`processed_patient_ids` and calls no persistence function ("NOT saving"). -/
def sweepTimeouts (now : Int) (s : MonState) : MonState :=
  { s with monitoring := s.monitoring.filter (fun e => !(decide (now - e.2 ≥ emrWaitMax))) }

/-- C5: every pending entry whose submission time lies more than the maximum
wait (90 seconds) before `now` is removed by the timeout sweep — it is absent
from the monitoring set afterwards — and the sweep persists nothing (the set of
processed/saved ids is unchanged). -/
theorem c5_timeout_sweep_evicts (now : Int) (s : MonState) (id : String) (t : Int)
    (hmem : (id, t) ∈ s.monitoring) (hold : now - t > 90) :
    (id, t) ∉ (sweepTimeouts now s).monitoring ∧
    (sweepTimeouts now s).processed = s.processed := by
  constructor
  · intro hin
    have := List.of_mem_filter hin
    simp only [emrWaitMax, Bool.not_eq_true', decide_eq_false_iff_not, not_le] at this
    omega
  · rfl

/-- Witness for C5: an entry submitted at t=0 swept at now=100 (100 seconds
old, more than the 90-second maximum) is gone, and nothing was persisted. -/
theorem c5_witness :
    ("a", (0 : Int)) ∉ (sweepTimeouts 100 ⟨[("a", 0)], ["done"]⟩).monitoring ∧
    (sweepTimeouts 100 ⟨[("a", 0)], ["done"]⟩).processed = ["done"] :=
  c5_timeout_sweep_evicts 100 ⟨[("a", 0)], ["done"]⟩ "a" 0 (by decide) (by decide)

/-- One row of the `patients` table as read by the lookup endpoint: a unique
row id, the nullable `emr_id` column, and `created_at`. -/
structure ApiRow where
  rowid : Nat
  emr_id : Option String
  created_at : Nat
deriving DecidableEq

/-- `ORDER BY created_at DESC LIMIT 1` followed by `fetchone`: a pass over the
matching rows keeping a row of maximal `created_at` (the first such row on
ties, which SQL leaves unspecified). -/
def latestAux : Option ApiRow → List ApiRow → Option ApiRow
  | acc, [] => acc
  | acc, r :: rest =>
    latestAux
      (match acc with
       | none => some r
       | some b => if r.created_at > b.created_at then some r else some b) rest

/-- The query of api.py lines 130-144: `WHERE emr_id = %s ORDER BY created_at
DESC LIMIT 1` (rows whose `emr_id` is NULL never match the equality). -/
def selectLatestByEmr (rows : List ApiRow) (e : String) : Option ApiRow :=
  latestAux none (rows.filter (fun r => r.emr_id == some e))

/-- `GET /patient/{emr_id}` (api.py lines 107-183): a failed database
connection raises HTTP 503 from `get_db_connection` (lines 78-85), re-raised
unchanged by the `except HTTPException` arm; an empty query result raises HTTP
404; otherwise the fetched row is returned.  The database is `none` when the
connection cannot be established. -/
def get_patient_by_emr_id (db : Option (List ApiRow)) (e : String) : Except Nat ApiRow :=
  match db with
  | none => .error 503
  | some rows =>
    match selectLatestByEmr rows e with
    | none => .error 404
    | some r => .ok r

theorem latestAux_mem : ∀ (l : List ApiRow) (acc : Option ApiRow) (r : ApiRow),
    latestAux acc l = some r → acc = some r ∨ r ∈ l := by
  intro l
  induction l with
  | nil => intro acc r h; exact Or.inl h
  | cons x rest ih =>
    intro acc r h
    rcases ih _ r h with hacc | hmem
    · cases acc with
      | none =>
        simp only at hacc
        cases hacc
        exact Or.inr (List.mem_cons_self _ _)
      | some b =>
        simp only at hacc
        split at hacc
        · cases hacc
          exact Or.inr (List.mem_cons_self _ _)
        · exact Or.inl hacc
    · exact Or.inr (List.mem_cons_of_mem x hmem)

theorem latestAux_ge : ∀ (l : List ApiRow) (acc : Option ApiRow) (r : ApiRow),
    latestAux acc l = some r →
    (∀ x ∈ l, x.created_at ≤ r.created_at) ∧
    (∀ b, acc = some b → b.created_at ≤ r.created_at) := by
  intro l
  induction l with
  | nil =>
    intro acc r h
    refine ⟨?_, ?_⟩
    · intro x hx
      cases hx
    · intro b hb
      rw [hb] at h
      rw [Option.some_inj.mp h]
  | cons x rest ih =>
    intro acc r h
    have step := ih _ r h
    have hx : x.created_at ≤ r.created_at := by
      cases acc with
      | none => exact step.2 x rfl
      | some b =>
        by_cases hgt : x.created_at > b.created_at
        · exact step.2 x (by simp [hgt])
        · have hb := step.2 b (by simp [hgt])
          omega
    refine ⟨?_, ?_⟩
    · intro y hy
      rcases List.mem_cons.mp hy with hyx | hyr
      · rw [hyx]; exact hx
      · exact step.1 y hyr
    · intro b hb
      subst hb
      by_cases hgt : x.created_at > b.created_at
      · have := step.2 x (by simp [hgt])
        omega
      · exact step.2 b (by simp [hgt])

theorem latestAux_of_none : ∀ (l : List ApiRow) (acc : Option ApiRow),
    latestAux acc l = none → acc = none ∧ l = [] := by
  intro l
  induction l with
  | nil => intro acc h; exact ⟨h, rfl⟩
  | cons x rest ih =>
    intro acc h
    have := (ih _ h).1
    cases acc with
    | none => simp only at this; exact absurd this (by simp)
    | some b =>
      simp only at this
      split at this
      · exact absurd this (by simp)
      · exact absurd this (by simp)

/-- C8: the lookup endpoint `GET /patient/{emr_id}` returns a persisted row
carrying the requested external id and maximal `created_at` among such rows
(the most recent one); when no persisted row has that external id it fails with
HTTP 404; and when the database connection cannot be established it fails with
HTTP 503. -/
theorem c8_lookup_endpoint (db : Option (List ApiRow)) (e : String) :
    (db = none → get_patient_by_emr_id db e = .error 503) ∧
    (∀ rows, db = some rows →
      ((∀ r ∈ rows, r.emr_id ≠ some e) → get_patient_by_emr_id db e = .error 404) ∧
      (∀ r, get_patient_by_emr_id db e = .ok r →
        r ∈ rows ∧ r.emr_id = some e ∧
        ∀ r2 ∈ rows, r2.emr_id = some e → r2.created_at ≤ r.created_at)) := by
  refine ⟨fun h => by rw [h]; rfl, ?_⟩
  intro rows hdb
  subst hdb
  constructor
  · intro hnone
    have hfil : rows.filter (fun r => r.emr_id == some e) = [] := by
      rw [List.filter_eq_nil_iff]
      intro r hr
      simpa using hnone r hr
    simp only [get_patient_by_emr_id, selectLatestByEmr, hfil]
    rfl
  · intro r hr
    simp only [get_patient_by_emr_id] at hr
    rcases hsel : selectLatestByEmr rows e with _ | r0
    · rw [hsel] at hr; exact absurd hr (by simp)
    · rw [hsel] at hr
      have hr0 : r0 = r := by
        cases hr; rfl
      subst hr0
      unfold selectLatestByEmr at hsel
      rcases latestAux_mem _ _ _ hsel with habs | hmem
      · exact absurd habs (by simp)
      · have hin := List.mem_filter.mp hmem
        refine ⟨hin.1, by simpa using hin.2, ?_⟩
        intro r2 hr2 he2
        exact (latestAux_ge _ _ _ hsel).1 r2
          (List.mem_filter.mpr ⟨hr2, by simp [he2]⟩)

/-- Witness for C8: in a table with two rows bearing emr_id "99" (created at
5 and 9) and one row without, the endpoint returns the row created at 9. -/
theorem c8_witness :
    (⟨2, some "99", 9⟩ : ApiRow)
        ∈ [⟨1, some "99", 5⟩, ⟨2, some "99", 9⟩, (⟨3, none, 20⟩ : ApiRow)] ∧
    (⟨2, some "99", 9⟩ : ApiRow).emr_id = some "99" ∧
    ∀ r2 ∈ [⟨1, some "99", 5⟩, ⟨2, some "99", 9⟩, (⟨3, none, 20⟩ : ApiRow)],
      r2.emr_id = some "99" → r2.created_at ≤ (⟨2, some "99", 9⟩ : ApiRow).created_at :=
  ((c8_lookup_endpoint
      (some [⟨1, some "99", 5⟩, ⟨2, some "99", 9⟩, ⟨3, none, 20⟩]) "99").2
    [⟨1, some "99", 5⟩, ⟨2, some "99", 9⟩, ⟨3, none, 20⟩] rfl).2
    ⟨2, some "99", 9⟩ (by rfl)

/-- One entry of the patient_data.json log as accessed by
`update_patient_emr_id` (monitor_patient_form.py lines 715-781): each field is
read with `.get(key, '')` (and `.get('emr_id')` is falsy exactly when empty),
so a missing field is modelled as the empty string. -/
structure LogEntry where
  legalFirstName : String
  legalLastName : String
  captured_at : String
  emr_id : String
deriving DecidableEq

/-- First matching pass of `update_patient_emr_id` (lines 744-756): the first
entry with equal stripped first and last name, no EMR ID yet, and the same
captured_at receives `patient.emr_id`; `none` if no entry qualifies. -/
def mergePhase1 (patient : LogEntry) : List LogEntry → Option (List LogEntry)
  | [] => none
  | e :: rest =>
    if pyStrip e.legalFirstName == pyStrip patient.legalFirstName
        && pyStrip e.legalLastName == pyStrip patient.legalLastName
        && e.emr_id == ""
        && e.captured_at == patient.captured_at then
      some ({ e with emr_id := patient.emr_id } :: rest)
    else
      (mergePhase1 patient rest).map (e :: ·)

/-- Fallback pass of `update_patient_emr_id` (lines 758-765): walk the log in
reverse and give the EMR ID to the most recent entry that does not have one;
`none` if every entry already has one. -/
def setLastUnbound (v : String) : List LogEntry → Option (List LogEntry)
  | [] => none
  | e :: rest =>
    match setLastUnbound v rest with
    | some rest2 => some (e :: rest2)
    | none => if e.emr_id == "" then some ({ e with emr_id := v } :: rest) else none

/-- `update_patient_emr_id` (monitor_patient_form.py lines 715-781) at the level
of the JSON log: phase 1, then the most-recent-unbound fallback.  `some log2`
means the file is rewritten with `log2` (and the row is re-upserted into the
database); `none` means no entry was updated — nothing is written and the
function logs "Could not find matching patient entry" and returns normally. -/
def update_patient_emr_id (patient : LogEntry) (log : List LogEntry) :
    Option (List LogEntry) :=
  match mergePhase1 patient log with
  | some log2 => some log2
  | none => setLastUnbound patient.emr_id log

theorem mergePhase1_all_bound (patient : LogEntry) :
    ∀ log : List LogEntry, (∀ e ∈ log, e.emr_id ≠ "") →
      mergePhase1 patient log = none := by
  intro log
  induction log with
  | nil => intro _; rfl
  | cons e rest ih =>
    intro h
    have he : e.emr_id ≠ "" := h e (List.mem_cons_self _ _)
    have hcond : (pyStrip e.legalFirstName == pyStrip patient.legalFirstName
        && pyStrip e.legalLastName == pyStrip patient.legalLastName
        && e.emr_id == ""
        && e.captured_at == patient.captured_at) = false := by
      simp [he]
    simp only [mergePhase1, hcond]
    rw [ih (fun x hx => h x (List.mem_cons_of_mem e hx))]
    rfl

theorem setLastUnbound_all_bound (v : String) :
    ∀ log : List LogEntry, (∀ e ∈ log, e.emr_id ≠ "") →
      setLastUnbound v log = none := by
  intro log
  induction log with
  | nil => intro _; rfl
  | cons e rest ih =>
    intro h
    have he : e.emr_id ≠ "" := h e (List.mem_cons_self _ _)
    simp only [setLastUnbound]
    rw [ih (fun x hx => h x (List.mem_cons_of_mem e hx))]
    simp [he]

/-- C1 (amended): a second invocation of `update_patient_emr_id` with the same
external id is a no-op (no entry modified, nothing rewritten, no error) exactly
in the case where no log entry still lacks an external id; whenever some entry
still lacks one, the fallback instead binds the same external id to the most
recent such entry — a different record — so the same external id can come to be
attached to two different records (see the counterexample). -/
theorem c1_merge_noop_iff_all_bound (patient : LogEntry) (log : List LogEntry)
    (h : ∀ e ∈ log, e.emr_id ≠ "") :
    update_patient_emr_id patient log = none := by
  unfold update_patient_emr_id
  rw [mergePhase1_all_bound patient log h]
  exact setLastUnbound_all_bound patient.emr_id log h

/-- Witness for C1 (amended): after the only entry is bound, a repeat merge
returns without modifying anything. -/
theorem c1_witness :
    update_patient_emr_id ⟨"Ann", "Lee", "t1", "99"⟩ [⟨"Ann", "Lee", "t1", "99"⟩] = none :=
  c1_merge_noop_iff_all_bound ⟨"Ann", "Lee", "t1", "99"⟩ [⟨"Ann", "Lee", "t1", "99"⟩]
    (by decide)

/-- Counterexample to C1 as stated: the log holds Ann's entry and Bob's entry,
both unbound.  Merging EMR ID "99" for Ann binds Ann's entry.  Invoking the
merge a second time with the same external id is NOT a no-op: phase 1 skips
Ann's (now bound) entry, and the fallback hands the same id "99" to Bob's
entry — a different record is modified, and the external id is now attached to
a second record. -/
theorem c1_counterexample :
    update_patient_emr_id ⟨"Ann", "Lee", "t1", "99"⟩
        [⟨"Ann", "Lee", "t1", ""⟩, ⟨"Bob", "Kim", "t2", ""⟩]
      = some [⟨"Ann", "Lee", "t1", "99"⟩, ⟨"Bob", "Kim", "t2", ""⟩] ∧
    update_patient_emr_id ⟨"Ann", "Lee", "t1", "99"⟩
        [⟨"Ann", "Lee", "t1", "99"⟩, ⟨"Bob", "Kim", "t2", ""⟩]
      = some [⟨"Ann", "Lee", "t1", "99"⟩, ⟨"Bob", "Kim", "t2", "99"⟩] := by
  decide

/-- A row of the `patients` table with the columns written by
`save_patient_to_db` (monitor_patient_form.py lines 248-301) and
`insert_patients` (save_to_db.py lines 183-239).  `captured_at` is always
populated (`... or datetime.now()`), so it is not nullable here; the
server-maintained created_at/updated_at columns are not modelled. -/
structure DbRow where
  patient_id : Option String
  solv_id : Option String
  emr_id : Option String
  location_id : Option String
  location_name : Option String
  legal_first_name : Option String
  legal_last_name : Option String
  first_name : Option String
  last_name : Option String
  mobile_phone : Option String
  dob : Option String
  date_of_birth : Option String
  reason_for_visit : Option String
  sex_at_birth : Option String
  gender : Option String
  room : Option String
  captured_at : String
  raw_data : String
deriving DecidableEq

/-- The two `on_conflict` modes of `save_patient_to_db` / `insert_patients`. -/
inductive ConflictMode | ignore | update
deriving DecidableEq

/-- The `ON CONFLICT (patient_id, location_id, captured_at)` target with SQL
NULL semantics: a NULL in a unique-constraint column never equals anything, so
a conflict fires only when both rows have non-null, equal patient_id and
location_id and equal captured_at. -/
def sqlConflict (r row : DbRow) : Bool :=
  match r.patient_id, row.patient_id, r.location_id, row.location_id with
  | some a, some b, some c, some d =>
    a == b && c == d && r.captured_at == row.captured_at
  | _, _, _, _ => false

/-- The `DO UPDATE SET` list (monitor_patient_form.py lines 262-280 =
save_to_db.py lines 197-215): every listed column, including `emr_id`, is set
to the EXCLUDED (incoming) value; the conflict-key columns stay. -/
def applyUpdate (row r : DbRow) : DbRow :=
  { row with
    solv_id := r.solv_id, emr_id := r.emr_id, location_name := r.location_name,
    legal_first_name := r.legal_first_name, legal_last_name := r.legal_last_name,
    first_name := r.first_name, last_name := r.last_name,
    mobile_phone := r.mobile_phone, dob := r.dob,
    date_of_birth := r.date_of_birth, reason_for_visit := r.reason_for_visit,
    sex_at_birth := r.sex_at_birth, gender := r.gender, room := r.room,
    raw_data := r.raw_data }

/-- The upsert executed by `save_patient_to_db` / `insert_patients`: insert the
normalized row; on a conflict, DO NOTHING (`ignore`) or DO UPDATE (`update`). -/
def upsertPatient (mode : ConflictMode) (t : List DbRow) (r : DbRow) : List DbRow :=
  if t.any (fun row => sqlConflict r row) then
    match mode with
    | .ignore => t
    | .update => t.map (fun row => if sqlConflict r row then applyUpdate row r else row)
  else t ++ [r]

/-- C2 (amended): on a conflict, the `update` path replaces EVERY listed
column of the conflicting row with the incoming value — including `emr_id`, so
a stored non-null external id is overwritten by the new record's value (null
included, see the counterexample) — while the conflict-key columns stay; and
the `ignore` path (the save_to_db.py default) leaves the table entirely
unchanged, updating no field at all.  No code path updates the other fields
while preserving a stored non-null emr_id. -/
theorem c2_upsert_overwrites_emr_id (t : List DbRow) (r row : DbRow)
    (hmem : row ∈ t) (hc : sqlConflict r row = true) :
    upsertPatient .ignore t r = t ∧
    applyUpdate row r ∈ upsertPatient .update t r ∧
    (applyUpdate row r).emr_id = r.emr_id ∧
    (applyUpdate row r).first_name = r.first_name ∧
    (applyUpdate row r).patient_id = row.patient_id ∧
    (applyUpdate row r).location_id = row.location_id ∧
    (applyUpdate row r).captured_at = row.captured_at := by
  have hany : t.any (fun row => sqlConflict r row) = true :=
    List.any_eq_true.mpr ⟨row, hmem, hc⟩
  refine ⟨by simp [upsertPatient, hany], ?_, rfl, rfl, rfl, rfl, rfl⟩
  simp only [upsertPatient, hany, if_true]
  have hmap := List.mem_map_of_mem
    (fun row => if sqlConflict r row then applyUpdate row r else row) hmem
  simp only [hc, if_true] at hmap
  exact hmap

/-- The stored row of the C2 scenario: key (p1, L, t1), external id "99". -/
def c2StoredRow : DbRow :=
  ⟨some "p1", none, some "99", some "L", none, none, none, none, none, none,
   none, none, none, none, none, none, "t1", "raw1"⟩

/-- The re-observed submission of the C2 scenario: same conflict key, but its
normalized `emr_id` is null. -/
def c2Resubmission : DbRow :=
  ⟨some "p1", none, none, some "L", none, none, none, none, none, none,
   none, none, none, none, none, none, "t1", "raw2"⟩

/-- Witness for C2 (amended), at the concrete scenario rows. -/
theorem c2_witness :
    upsertPatient .ignore [c2StoredRow] c2Resubmission = [c2StoredRow] ∧
    applyUpdate c2StoredRow c2Resubmission
        ∈ upsertPatient .update [c2StoredRow] c2Resubmission ∧
    (applyUpdate c2StoredRow c2Resubmission).emr_id = c2Resubmission.emr_id ∧
    (applyUpdate c2StoredRow c2Resubmission).first_name = c2Resubmission.first_name ∧
    (applyUpdate c2StoredRow c2Resubmission).patient_id = c2StoredRow.patient_id ∧
    (applyUpdate c2StoredRow c2Resubmission).location_id = c2StoredRow.location_id ∧
    (applyUpdate c2StoredRow c2Resubmission).captured_at = c2StoredRow.captured_at :=
  c2_upsert_overwrites_emr_id [c2StoredRow] c2Resubmission c2StoredRow
    (by decide) (by decide)

/-- Counterexample to C2 as stated: a row persisted with non-null emr_id "99"
is upserted again (update mode, as every monitor write uses) under the same
conflict key with a null incoming emr_id — the stored non-null external id is
overwritten with NULL rather than left unchanged. -/
theorem c2_counterexample :
    sqlConflict c2Resubmission c2StoredRow = true ∧
    c2StoredRow.emr_id = some "99" ∧
    upsertPatient .update [c2StoredRow] c2Resubmission
      = [applyUpdate c2StoredRow c2Resubmission] ∧
    (applyUpdate c2StoredRow c2Resubmission).emr_id = none := by
  decide

/-- A Python value as flowing through the duck-typed payload-handling code:
JSON values plus the `datetime` objects produced by timestamp normalization
(the datetime payload is an opaque string token). -/
inductive PyVal where
  | none : PyVal
  | str : String → PyVal
  | int : Int → PyVal
  | bool : Bool → PyVal
  | arr : List PyVal → PyVal
  | obj : List (String × PyVal) → PyVal
  | datetime : String → PyVal

/-- Python truthiness: None, empty string, zero, False and empty containers
are falsy; datetimes are always truthy. -/
def truthy : PyVal → Bool
  | .none => false
  | .str s => !(s == "")
  | .int n => !(n == 0)
  | .bool b => b
  | .arr xs => !xs.isEmpty
  | .obj kvs => !kvs.isEmpty
  | .datetime _ => true

/-- `d.get(key, dflt)` on a dict, modelled as first-match lookup. -/
def objGet : List (String × PyVal) → String → PyVal → PyVal
  | [], _, dflt => dflt
  | (k, v) :: rest, key, dflt => if k == key then v else objGet rest key dflt

/-- `key in d` on a dict. -/
def hasKey (kvs : List (String × PyVal)) (key : String) : Bool :=
  kvs.any (fun kv => kv.1 == key)

/-- Python `a or b`: `a` when truthy, else `b`. -/
def pyOr (a b : PyVal) : PyVal := if truthy a then a else b

/-- A Python `or`-chain `x1 or x2 or ... or xn`: the first truthy element,
else the final element (which is returned even when falsy — chains in the code
end in an explicit default such as `None`, `''` or a generated id). -/
def pyOrChain : List PyVal → PyVal
  | [] => .none
  | [v] => v
  | v :: w :: rest => if truthy v then v else pyOrChain (w :: rest)

/-- A single-quote character, used by Python `repr`. -/
def squote : String := String.singleton (Char.ofNat 39)

mutual
/-- Python `repr` on the modelled values (string escaping is not modelled; the
code never branches on repr contents). -/
def pyRepr : PyVal → String
  | .none => "None"
  | .str s => squote ++ s ++ squote
  | .int n => toString n
  | .bool b => if b then "True" else "False"
  | .arr xs => "[" ++ pyReprList xs ++ "]"
  | .obj kvs => "\x7b" ++ pyReprObj kvs ++ "\x7d"
  | .datetime t => t
def pyReprList : List PyVal → String
  | [] => ""
  | [v] => pyRepr v
  | v :: w :: rest => pyRepr v ++ ", " ++ pyReprList (w :: rest)
def pyReprObj : List (String × PyVal) → String
  | [] => ""
  | [(k, v)] => squote ++ k ++ squote ++ ": " ++ pyRepr v
  | (k, v) :: w :: rest =>
    squote ++ k ++ squote ++ ": " ++ pyRepr v ++ ", " ++ pyReprObj (w :: rest)
end

/-- Python `str()`: identity on strings, `repr`-like rendering otherwise. -/
def pyStr : PyVal → String
  | .str s => s
  | v => pyRepr v

instance instDecEqExcept {ε α : Type} [DecidableEq ε] [DecidableEq α] :
    DecidableEq (Except ε α) := fun a b =>
  match a, b with
  | .ok x, .ok y =>
    if h : x = y then .isTrue (by rw [h]) else .isFalse (by intro he; cases he; exact h rfl)
  | .error x, .error y =>
    if h : x = y then .isTrue (by rw [h]) else .isFalse (by intro he; cases he; exact h rfl)
  | .ok _, .error _ => .isFalse (by intro he; cases he)
  | .error _, .ok _ => .isFalse (by intro he; cases he)

mutual
/-- `json.dumps` with default separators (string escaping is not modelled;
no claim depends on the serialized text).  A datetime value raises TypeError,
modelled as an error. -/
def pyDumps : PyVal → Except Unit String
  | .none => .ok "null"
  | .str s => .ok ("\"" ++ s ++ "\"")
  | .int n => .ok (toString n)
  | .bool b => .ok (if b then "true" else "false")
  | .arr xs => do
    let s ← pyDumpsList xs
    .ok ("[" ++ s ++ "]")
  | .obj kvs => do
    let s ← pyDumpsObj kvs
    .ok ("\x7b" ++ s ++ "\x7d")
  | .datetime _ => .error ()
def pyDumpsList : List PyVal → Except Unit String
  | [] => .ok ""
  | [v] => pyDumps v
  | v :: w :: rest => do
    let a ← pyDumps v
    let b ← pyDumpsList (w :: rest)
    .ok (a ++ ", " ++ b)
def pyDumpsObj : List (String × PyVal) → Except Unit String
  | [] => .ok ""
  | [(k, v)] => do
    let a ← pyDumps v
    .ok ("\"" ++ k ++ "\": " ++ a)
  | (k, v) :: w :: rest => do
    let a ← pyDumps v
    let b ← pyDumpsObj (w :: rest)
    .ok ("\"" ++ k ++ "\": " ++ a ++ ", " ++ b)
end

/-- URL relevance test of the form monitor's traffic watcher
(monitor_patient_form.py lines 843-857): status 200 and the lowercased URL
contains one of the listed substrings.  There is no auth/token exclusion. -/
def isRelevantUrl (status : Nat) (url : String) : Bool :=
  let u := toLowerStr url
  status == 200 &&
    (strContains u "patient" || strContains u "booking" || strContains u "bookings"
      || strContains u "queue" || strContains u "appointment" || strContains u "appointments"
      || strContains u "facesheet" || strContains u "visit" || strContains u "/api/"
      || strContains u "api-manage.solvhealth.com")

/-- `isinstance(value, (str, int))` — in Python `bool` is a subclass of `int`. -/
def isStrIntB : PyVal → Bool
  | .str _ => true
  | .int _ => true
  | .bool _ => true
  | _ => false

mutual
/-- The recursive `find_emr_id` search (monitor_patient_form.py lines
901-925), restricted to its effect on the extracted identifier (the
`patient_match` / `all_patients` bookkeeping only enriches candidate names and
never affects which identifier is extracted).  For a dict, each item is
examined in order: a key containing "emr" with a str/int value that is truthy
and strips to a nonempty string is taken and stops that dict's iteration
(Python `return`); otherwise dict and list values are descended into — the
parent loop continues afterwards without consulting the result, so a later
direct hit overwrites an earlier nested one (`st` is threaded through and
overwritten unconditionally, as in the source). -/
def findEmr : PyVal → Option String → Option String
  | .obj kvs, st => findEmrObj kvs st
  | .arr xs, st => findEmrList xs st
  | _, st => st
def findEmrObj : List (String × PyVal) → Option String → Option String
  | [], st => st
  | (k, v) :: rest, st =>
    if strContains (toLowerStr k) "emr" && isStrIntB v then
      if truthy v && !(pyStrip (pyStr v) == "") then some (pyStrip (pyStr v))
      else findEmrObj rest st
    else
      match v with
      | .obj kvs2 => findEmrObj rest (findEmrObj kvs2 st)
      | .arr xs => findEmrObj rest (findEmrList xs st)
      | _ => findEmrObj rest st
def findEmrList : List PyVal → Option String → Option String
  | [], st => st
  | v :: rest, st => findEmrList rest (findEmr v st)
end

/-- Method 1 of the booking fast path (lines 876-885): the first dict item of
`integration_status` with a truthy `emr_id` yields `str(value).strip()` and
breaks; non-dict items and falsy values are skipped. -/
def integrationEmr : List PyVal → String
  | [] => ""
  | item :: rest =>
    match item with
    | .obj ikvs =>
      let v := objGet ikvs "emr_id" .none
      if truthy v then pyStrip (pyStr v) else integrationEmr rest
    | _ => integrationEmr rest

/-- The booking fast path on `booking_data` (lines 875-895): method 1 over a
nonempty `integration_status` list, then — when the identifier is still falsy —
method 2 via `patient_match_details.external_user_profile_id`. -/
def bookingEmrStr (bdk : List (String × PyVal)) : String :=
  let m1 :=
    match objGet bdk "integration_status" (.arr []) with
    | .arr (x :: xs) => integrationEmr (x :: xs)
    | _ => ""
  if !(m1 == "") then m1
  else
    match objGet bdk "patient_match_details" (.obj []) with
    | .obj pmd =>
      let v := objGet pmd "external_user_profile_id" .none
      if truthy v then pyStrip (pyStr v) else ""
    | _ => ""

/-- The final `if emr_id:` truthiness gate (line 928). -/
def finalizeEmr (s : String) : Option String :=
  if s == "" then Option.none else some s

/-- The whole extraction stage of the form monitor's `handle_response` (lines
862-928) on a parsed JSON body: the booking fast path when the body is a dict
with a `data` key (when `data` is not itself a dict, `.get` raises
AttributeError, the handler's `except` swallows it and nothing is extracted);
otherwise, and when the fast path produced nothing, the recursive search. -/
def extractEmrFromBody (body : PyVal) : Option String :=
  match body with
  | .obj kvs =>
    if hasKey kvs "data" then
      match objGet kvs "data" .none with
      | .obj bdk =>
        let e1 := bookingEmrStr bdk
        let e2 := if e1 == "" then (findEmr body Option.none).getD "" else e1
        finalizeEmr e2
      | _ => Option.none
    else finalizeEmr ((findEmr body Option.none).getD "")
  | _ => finalizeEmr ((findEmr body Option.none).getD "")

/-- The candidate identifier the form monitor's traffic watcher produces for a
completed response: URL/status relevance gate, then body extraction (`body =
none` models a non-JSON body, whose `response.json()` failure is swallowed). -/
def trafficCandidate (status : Nat) (url : String) (body : Option PyVal) : Option String :=
  if isRelevantUrl status url then
    match body with
    | some b => extractEmrFromBody b
    | Option.none => Option.none
  else Option.none

/-- `any('patient' in str(k).lower() for k in data.keys())` (scraper.py 789). -/
def hasPatientLikeKey (kvs : List (String × PyVal)) : Bool :=
  kvs.any (fun kv => strContains (toLowerStr kv.1) "patient")

/-- `any(isinstance(v, list) and len(v) > 0 and isinstance(v[0], dict) ...)`
(scraper.py line 792). -/
def hasNonemptyDictList (kvs : List (String × PyVal)) : Bool :=
  kvs.any (fun kv =>
    match kv.2 with
    | .arr (x :: _) => (match x with | .obj _ => true | _ => false)
    | _ => false)

/-- `has_patient_data` shape test of the scraper's response collector
(scraper.py lines 780-795), including the token-response skip. -/
def hasPatientData : PyVal → Bool
  | .obj kvs =>
    if hasKey kvs "access_token" || hasKey kvs "token" then false
    else if hasKey kvs "patients" || hasKey kvs "queue" || hasKey kvs "data" then true
    else if hasPatientLikeKey kvs then true
    else hasNonemptyDictList kvs
  | .arr (x :: _) => (match x with | .obj _ => true | _ => false)
  | _ => false

/-- The scraper's `handle_response` collector (scraper.py lines 765-805):
URLs containing token/auth/login are skipped outright; otherwise a nonempty
lowercased URL containing queue/patient/api/appointment with a JSON
content type has its parsed body shape-tested. -/
def scraperCaptures (url contentType : String) (body : Option PyVal) : Bool :=
  let u := toLowerStr url
  if strContains u "token" || strContains u "auth" || strContains u "login" then false
  else if !(u == "")
      && (strContains u "queue" || strContains u "patient"
          || strContains u "api" || strContains u "appointment") then
    if strContains contentType "application/json" then
      match body with
      | some data => hasPatientData data
      | Option.none => false
    else false
  else false

/-- C6 (amended): the form monitor's traffic watcher extracts candidate
identifiers only from status-200 responses whose lowercased URL contains one of
patient / booking / bookings / queue / appointment / appointments / facesheet /
visit / "/api/" / "api-manage.solvhealth.com" — a strictly wider set than the
claimed six keywords — and it has NO auth/token exclusion (see the
counterexample).  The auth/token skip exists only in the scraper's separate
response collector, which drops every URL containing auth, token or login
before any body inspection. -/
theorem c6_watcher_relevance_gate (status : Nat) (url : String) (body : Option PyVal) :
    (isRelevantUrl status url = false → trafficCandidate status url body = Option.none) ∧
    ((strContains (toLowerStr url) "auth" || strContains (toLowerStr url) "token") = true →
      ∀ contentType : String, scraperCaptures url contentType body = false) := by
  constructor
  · intro h
    simp [trafficCandidate, h]
  · intro h contentType
    rcases Bool.or_eq_true_iff.mp h with ha | ht
    · simp [scraperCaptures, ha]
    · simp [scraperCaptures, ht]

/-- Witness for C6 (amended): an irrelevant response (status 404) yields no
candidate, and a token URL is dropped by the scraper's collector even with a
patient-shaped JSON body. -/
theorem c6_witness :
    trafficCandidate 404 "https://x.test/patient" Option.none = Option.none ∧
    scraperCaptures "https://a.test/token" "application/json"
      (some (.obj [("patients", .arr [])])) = false :=
  ⟨(c6_watcher_relevance_gate 404 "https://x.test/patient" Option.none).1 (by decide),
   (c6_watcher_relevance_gate 404 "https://a.test/token"
      (some (.obj [("patients", .arr [])]))).2 (by decide) "application/json"⟩

/-- Counterexample to C6 as stated: a completed status-200 response whose URL
contains both "auth" and "token" (an OAuth token endpoint on the relevant API
host) has a candidate identifier extracted from its body by the form monitor's
traffic watcher — the claimed auth/token exclusion does not exist there. -/
theorem c6_counterexample :
    strContains (toLowerStr "https://api-manage.solvhealth.com/oauth/token") "auth" = true ∧
    strContains (toLowerStr "https://api-manage.solvhealth.com/oauth/token") "token" = true ∧
    trafficCandidate 200 "https://api-manage.solvhealth.com/oauth/token"
      (some (.obj [("data",
        .obj [("integration_status", .arr [.obj [("emr_id", .int 42)]])])]))
      = some "42" := by
  decide

/-- The strings matched by the `%H` pattern CPython strptime compiles
(`2[0-3]|[0-1]\d|\d`): one or two digits with value at most 23. -/
def hourOk (s : String) : Bool :=
  digitsOnly s && decide (s.length ≤ 2) && decide (digitsVal s ≤ 23)

/-- The strings matched by `%M` / `%S` (`[0-5]\d|\d`): one or two digits with
value at most 59. -/
def minSecOk (s : String) : Bool :=
  digitsOnly s && decide (s.length ≤ 2) && decide (digitsVal s ≤ 59)

/-- The strings matched by `%f` (`[0-9]{1,6}`). -/
def fracOk (s : String) : Bool :=
  digitsOnly s && decide (s.length ≤ 6)

/-- `s.replace(Z, +00:00)` as applied before `fromisoformat`. -/
def replaceZ (s : String) : String :=
  String.mk (s.data.foldr
    (fun c acc => (if c == 'Z' then ("+00:00".data) else [c]) ++ acc) [])

/-- `HH:MM[:SS[.frac]]` with a 3- or 6-digit fraction, the time grammar
`datetime.fromisoformat` accepts. -/
def isoTimeCore (t : String) : Bool :=
  match splitChar (Char.ofNat 46) t with
  | [hms] =>
    (match splitChar ':' hms with
     | [h, m] => hourOk h && minSecOk m
     | [h, m, s2] => hourOk h && minSecOk m && minSecOk s2
     | _ => false)
  | [hms, fr] =>
    (match splitChar ':' hms with
     | [h, m, s2] => hourOk h && minSecOk m && minSecOk s2
     | _ => false) && fracOk fr && (fr.length == 3 || fr.length == 6)
  | _ => false

/-- A UTC-offset tail `HH:MM[:SS]`. -/
def isoTzPart (z : String) : Bool :=
  match splitChar ':' z with
  | [h, m] => hourOk h && minSecOk m
  | [h, m, s2] => hourOk h && minSecOk m && minSecOk s2
  | _ => false

/-- Time-of-day with an optional `+HH:MM`/`-HH:MM[:SS]` offset. -/
def isoTimeWithTz (t : String) : Bool :=
  match splitChar '+' t with
  | [_] =>
    (match splitChar '-' t with
     | [c2] => isoTimeCore c2
     | [c2, z] => isoTimeCore c2 && isoTzPart z
     | _ => false)
  | [core, z] => isoTimeCore core && isoTzPart z
  | _ => false

/-- A model of `datetime.fromisoformat` (after the Z replacement): a
`YYYY-MM-DD` date alone, or the date, any one separator character, and a time
with optional offset.  This approximates the CPython grammar; no claim depends
on which timestamp strings parse, only on the datetime-or-None result shape. -/
def fromIso (s : String) : Option String :=
  if s.length == 10 then (strptimeDate ⟨'-', .ymd⟩ s).map (fun _ => s)
  else if decide (12 ≤ s.length) then
    let d := String.mk (s.data.take 10)
    let t := String.mk (s.data.drop 11)
    match strptimeDate ⟨'-', .ymd⟩ d with
    | some _ => if isoTimeWithTz t then some s else Option.none
    | Option.none => Option.none
  else Option.none

/-- strptime format `%Y-%m-%dT%H:%M:%S.%f`. -/
def tsFmtA (s : String) : Bool :=
  match splitChar 'T' s with
  | [d, t] =>
    (strptimeDate ⟨'-', .ymd⟩ d).isSome &&
    (match splitChar (Char.ofNat 46) t with
     | [hms, fr] =>
       (match splitChar ':' hms with
        | [h, m, s2] => hourOk h && minSecOk m && minSecOk s2
        | _ => false) && fracOk fr
     | _ => false)
  | _ => false

/-- strptime format `%Y-%m-%dT%H:%M:%S`. -/
def tsFmtB (s : String) : Bool :=
  match splitChar 'T' s with
  | [d, t] =>
    (strptimeDate ⟨'-', .ymd⟩ d).isSome &&
    (match splitChar ':' t with
     | [h, m, s2] => hourOk h && minSecOk m && minSecOk s2
     | _ => false)
  | _ => false

/-- strptime format `%Y-%m-%d %H:%M:%S`. -/
def tsFmtC (s : String) : Bool :=
  match splitChar ' ' s with
  | [d, t] =>
    (strptimeDate ⟨'-', .ymd⟩ d).isSome &&
    (match splitChar ':' t with
     | [h, m, s2] => hourOk h && minSecOk m && minSecOk s2
     | _ => false)
  | _ => false

/-- `normalize_timestamp` (save_to_db.py lines 80-106 = monitor_patient_form.py
lines 120-146) lifted to a Python value: a falsy argument yields None; a truthy
non-string raises AttributeError on `.strip()`; a truthy string is stripped,
tried against ISO format (after Z replacement) and then the three strptime
formats, and yields a datetime token on the first success, else None. -/
def normalize_timestamp_py (v : PyVal) : Except Unit (Option String) :=
  if !(truthy v) then .ok Option.none
  else match v with
  | .str s =>
    let t := pyStrip s
    if t == "" then .ok Option.none
    else match fromIso (replaceZ t) with
      | some tok => .ok (some tok)
      | Option.none =>
        if tsFmtA t then .ok (some t)
        else if tsFmtB t then .ok (some t)
        else if tsFmtC t then .ok (some t)
        else .ok Option.none
  | _ => .error ()

/-- `normalize_date(value)` as invoked on the already-truthy `dob` value in
`normalize_patient_record`: a truthy non-string raises AttributeError on
`.strip()`; a string goes through `normalize_date`; a falsy value returns
None. -/
def pyNormalizeDate (v : PyVal) : Except Unit (Option String) :=
  if !(truthy v) then .ok Option.none
  else match v with
  | .str s => .ok (normalize_date s)
  | _ => .error ()

/-- Python `value == ''`: true exactly for the empty string. -/
def isEmptyStrPy : PyVal → Bool
  | .str s => s == ""
  | _ => false

/-- The final cleanup loop of `normalize_patient_record` (save_to_db.py lines
142-144 = monitor_patient_form.py lines 182-184): every value equal to the
empty string becomes None. -/
def cleanEmptyStr (l : List (String × PyVal)) : List (String × PyVal) :=
  l.map (fun kv => if isEmptyStrPy kv.2 then (kv.1, PyVal.none) else kv)

/-- The field `or`-chains of the dict literal in `normalize_patient_record`
(save_to_db.py lines 111-135): each output value is the first truthy synonym,
else None; `captured_at` and the normalized `date_of_birth` and the
`json.dumps` output are passed in. -/
def normalizedFields (record : List (String × PyVal)) (cap dobN : PyVal)
    (raw : String) : List (String × PyVal) :=
  let g := fun k => objGet record k PyVal.none
  [("patient_id", pyOrChain [g "patientId", g "patient_id", .none]),
   ("solv_id", pyOrChain [g "solvId", g "solv_id", .none]),
   ("emr_id", pyOrChain [g "emrId", g "emr_id", g "emr_id", .none]),
   ("location_id", pyOrChain [g "locationId", g "location_id", .none]),
   ("location_name", pyOrChain [g "location_name", g "locationName", .none]),
   ("legal_first_name", pyOrChain [g "legalFirstName", g "legal_first_name", .none]),
   ("legal_last_name", pyOrChain [g "legalLastName", g "legal_last_name", .none]),
   ("first_name", pyOrChain [g "firstName", g "first_name",
      g "legalFirstName", g "legal_first_name", .none]),
   ("last_name", pyOrChain [g "lastName", g "last_name",
      g "legalLastName", g "legal_last_name", .none]),
   ("mobile_phone", pyOrChain [g "mobilePhone", g "mobile_phone", g "phone", .none]),
   ("dob", pyOrChain [g "dob", g "dateOfBirth", g "date_of_birth", .none]),
   ("date_of_birth", dobN),
   ("reason_for_visit", pyOrChain [g "reasonForVisit", g "reason_for_visit",
      g "reason", .none]),
   ("sex_at_birth", pyOrChain [g "sexAtBirth", g "sex_at_birth", .none]),
   ("gender", pyOrChain [g "gender", g "sex", g "sexAtBirth", g "sex_at_birth", .none]),
   ("room", pyOrChain [g "room", g "roomNumber", g "room_number", .none]),
   ("captured_at", cap),
   ("raw_data", PyVal.str raw)]

/-- The `dob` value (`record.get(dob) or record.get(dateOfBirth) or
record.get(date_of_birth) or None`) whose truthiness gates date-of-birth
normalization. -/
def dobValue (record : List (String × PyVal)) : PyVal :=
  pyOrChain [objGet record "dob" PyVal.none, objGet record "dateOfBirth" PyVal.none,
    objGet record "date_of_birth" PyVal.none, PyVal.none]

/-- `normalize_patient_record` (save_to_db.py lines 109-146, duplicated in
monitor_patient_form.py lines 149-186): each output field is an `or`-chain over
synonym keys ending in None; `captured_at` is the normalized timestamp or
`datetime.now()` (passed here as `now`); `raw_data` is `json.dumps(record)`;
`date_of_birth` is the normalized `dob` when `dob` is truthy; finally every
empty-string value is replaced by None.  The `Except` layer carries the
AttributeError/TypeError a truthy non-string timestamp/dob or an
unserializable value would raise. -/
def normalize_patient_record (record : List (String × PyVal)) (now : String) :
    Except Unit (List (String × PyVal)) :=
  match normalize_timestamp_py
      (pyOr (objGet record "captured_at" PyVal.none)
            (objGet record "capturedAt" PyVal.none)) with
  | .error e => .error e
  | .ok ts =>
    match pyDumps (.obj record) with
    | .error e => .error e
    | .ok raw =>
      match (if truthy (dobValue record) then pyNormalizeDate (dobValue record)
             else .ok Option.none) with
      | .error e => .error e
      | .ok dnorm =>
        .ok (cleanEmptyStr (normalizedFields record
          (PyVal.datetime (ts.getD now))
          (match dnorm with
           | some d => PyVal.str d
           | Option.none => PyVal.none)
          raw))

/-- No field of the dict holds the empty string. -/
def noEmptyStrField (l : List (String × PyVal)) : Bool :=
  l.all (fun kv => !(isEmptyStrPy kv.2))

theorem cleanEmptyStr_no_empty : ∀ l, noEmptyStrField (cleanEmptyStr l) = true := by
  intro l
  induction l with
  | nil => rfl
  | cons kv rest ih =>
    simp only [cleanEmptyStr, List.map_cons, noEmptyStrField, List.all_cons] at ih ⊢
    rw [Bool.and_eq_true]
    refine ⟨?_, ih⟩
    by_cases h : isEmptyStrPy kv.2 = true
    · rw [if_pos h]
      rfl
    · rw [if_neg (by simp [h])]
      rw [Bool.not_eq_true] at h
      rw [h]
      rfl

/-- C9: whenever `normalize_patient_record` produces an output dict (rather
than raising), no field of the output holds the empty string — the cleanup loop
maps every empty-string value to None before persistence, so persisted rows
contain nulls rather than empty strings. -/
theorem c9_no_empty_string_fields (record : List (String × PyVal)) (now : String) :
    match normalize_patient_record record now with
    | .ok out => noEmptyStrField out = true
    | .error _ => True := by
  cases hEq : normalize_patient_record record now with
  | error e => simp [hEq]
  | ok out =>
    simp only [hEq]
    unfold normalize_patient_record at hEq
    split at hEq
    · exact Except.noConfusion hEq
    · split at hEq
      · exact Except.noConfusion hEq
      · split at hEq
        · exact Except.noConfusion hEq
        · rw [← Except.ok.inj hEq]
          exact cleanEmptyStr_no_empty _

/-- Python `str.split()` with no argument: split on whitespace runs, dropping
empty pieces. -/
def splitWsAux : List Char → List Char → List String
  | [], cur => if cur.isEmpty then [] else [String.mk cur.reverse]
  | c :: rest, cur =>
    if isPyWs c then
      if cur.isEmpty then splitWsAux rest []
      else String.mk cur.reverse :: splitWsAux rest []
    else splitWsAux rest (c :: cur)

def pySplitWs (s : String) : List String := splitWsAux s.data []

/-- `' '.join(xs)`. -/
def joinSpace : List String → String
  | [] => ""
  | [x] => x
  | x :: y :: rest => x ++ " " ++ joinSpace (y :: rest)

/-- `(v.split()[0] if v else '')` as used for composite name fields in
`normalize_patient_data`: a falsy value yields the empty string; a truthy
non-string raises AttributeError on `.split()`; a truthy whitespace-only
string raises IndexError on `[0]`. -/
def firstTok (v : PyVal) : Except Unit PyVal :=
  if !(truthy v) then .ok (.str "")
  else match v with
    | .str s =>
      match pySplitWs s with
      | [] => .error ()
      | t :: _ => .ok (.str t)
    | _ => .error ()

/-- `(' '.join(v.split()[1:]) if v else '')`: the joined tail of the
whitespace split (empty for one token), or the empty string for a falsy
value; a truthy non-string raises. -/
def restTok (v : PyVal) : Except Unit PyVal :=
  if !(truthy v) then .ok (.str "")
  else match v with
    | .str s => .ok (.str (joinSpace ((pySplitWs s).drop 1)))
    | _ => .error ()

/-- A Python `or`-chain whose members may raise: members are evaluated left to
right until one is truthy; the final member's value is returned even when
falsy. -/
def orEChain : List (Except Unit PyVal) → Except Unit PyVal
  | [] => .ok .none
  | [e] => e
  | e :: f :: rest => do
    let v ← e
    if truthy v then .ok v else orEChain (f :: rest)

/-- The nested-object name fallback of `normalize_patient_data` (scraper.py
lines 112-119): for each wrapper key in order, when it holds a dict, both name
fields are recomputed from that dict; the loop breaks as soon as either is
truthy, and otherwise continues carrying the (falsy) recomputed values. -/
def nestedNameLoop (kvs : List (String × PyVal)) (fn ln : PyVal) :
    List String → Except Unit (PyVal × PyVal)
  | [] => .ok (fn, ln)
  | key :: rest =>
    match objGet kvs key .none with
    | .obj np => do
      let fn2 ← orEChain [.ok (objGet np "firstName" .none),
        .ok (objGet np "first_name" .none), .ok (objGet np "first" .none),
        firstTok (objGet np "name" .none)]
      let ln2 ← orEChain [.ok (objGet np "lastName" .none),
        .ok (objGet np "last_name" .none), .ok (objGet np "last" .none),
        restTok (objGet np "name" .none)]
      if truthy fn2 || truthy ln2 then .ok (fn2, ln2)
      else nestedNameLoop kvs fn2 ln2 rest
    | _ => nestedNameLoop kvs fn ln rest

def spanDigits (l : List Char) : List Char × List Char :=
  (l.takeWhile Char.isDigit, l.dropWhile Char.isDigit)

/-- The anchored `re.match` of scraper.py line 154 (one-or-two digits, a
slash-or-dash class, one-or-two digits, the class again, two-to-four digits):
an anchored prefix match — one or two digits, a slash or dash, one or two
digits, a slash or dash, then at least two digits. -/
def matchDatePre (s : String) : Bool :=
  let (d1, r1) := spanDigits s.data
  if decide (1 ≤ d1.length) && decide (d1.length ≤ 2) then
    match r1 with
    | c1 :: r1t =>
      if c1 == '/' || c1 == '-' then
        let (d2, r2) := spanDigits r1t
        if decide (1 ≤ d2.length) && decide (d2.length ≤ 2) then
          match r2 with
          | c2 :: r2t =>
            if c2 == '/' || c2 == '-' then
              let (d3, _) := spanDigits r2t
              decide (2 ≤ d3.length)
            else false
          | [] => false
        else false
      else false
    | [] => false
  else false

/-- The `re.split` of scraper.py line 156 on the slash-or-dash class: split
at every slash or dash, keeping empties. -/
def splitSepsAux : List Char → List (List Char)
  | [] => [[]]
  | c :: t =>
    let r := splitSepsAux t
    if c == '/' || c == '-' then [] :: r
    else match r with
      | [] => [[c]]
      | h :: t2 => (c :: h) :: t2

def splitSeps (s : String) : List String := (splitSepsAux s.data).map String.mk

/-- `s.zfill(w)` on the digit components handled here. -/
def zfill (s : String) (w : Nat) : String :=
  String.mk (List.replicate (w - s.length) (Char.ofNat 48)) ++ s

/-- The dob reformatting of `normalize_patient_data` (scraper.py lines
152-163): when the string starts like `M/D/Y`, split it on slashes/dashes; a
three-part split with a two-character year gets a `20` century prefix, and the
pieces are reassembled as `Y-MM-DD`; otherwise the string is unchanged. -/
def convertDob (ds : String) : String :=
  if matchDatePre ds then
    match splitSeps ds with
    | [p0, p1, p2] =>
      (if p2.length == 2 then "20" ++ p2 else p2) ++ "-" ++ zfill p0 2 ++ "-" ++ zfill p1 2
    | _ => ds
  else ds

/-- `if dob:` then the regex/convert step — a truthy non-string dob raises
TypeError inside `re.match`. -/
def dobConvertStep (v : PyVal) : Except Unit PyVal :=
  if truthy v then
    match v with
    | .str ds => .ok (.str (convertDob ds))
    | _ => .error ()
  else .ok v

/-- The fixed-shape record `normalize_patient_data` returns (scraper.py lines
204-213): every field passed through `str()`. -/
structure NormRec where
  patientId : String
  solvId : String
  locationId : String
  firstName : String
  lastName : String
  dob : String
  gender : String
  room : String
deriving DecidableEq

/-- `isinstance(v, dict)`. -/
def isDictB : PyVal → Bool
  | .obj _ => true
  | _ => false

/-- `normalize_patient_data` (scraper.py lines 28-213): `None` for any
non-dict input (line 40-41); for dicts, id/location/name/dob/gender/room
extraction through synonym chains, nested-object fallbacks, dob reformatting
and gender/room normalization, ending in a `str()`-rendered fixed-shape
record.  The `Except` layer carries the AttributeError/IndexError/TypeError
possible on malformed truthy values inside a dict. -/
def normalize_patient_data (pd locationId : PyVal) (index : Nat) :
    Except Unit (Option NormRec) :=
  match pd with
  | .obj kvs => do
    let g := fun k => objGet kvs k PyVal.none
    let patientNested : Option (List (String × PyVal)) :=
      match objGet kvs "patient" PyVal.none with
      | .obj np => some np
      | _ => Option.none
    let patient_id :=
      match patientNested with
      | some np => pyOrChain [objGet np "patientId" .none, objGet np "patient_id" .none,
          objGet np "id" .none, objGet np "_id" .none,
          g "patientId", g "patient_id", g "id",
          .str ("exp-" ++ toString (index + 1))]
      | Option.none => pyOrChain [g "patientId", g "patient_id", g "id", g "_id",
          .str ("exp-" ++ toString (index + 1))]
    let solv_id := pyOrChain [g "solvId", g "solv_id", g "solv",
      g "externalId", g "external_id", .str ("solv-" ++ toString (index + 1))]
    let location := pyOrChain [g "locationId", g "location_id", g "location", locationId]
    let fn0 ← orEChain [.ok (g "firstName"), .ok (g "first_name"), .ok (g "firstname"),
      .ok (g "first"), .ok (g "givenName"), .ok (g "given_name"),
      firstTok (g "name"), firstTok (g "displayName"), firstTok (g "fullName")]
    let ln0 ← orEChain [.ok (g "lastName"), .ok (g "last_name"), .ok (g "lastname"),
      .ok (g "last"), .ok (g "familyName"), .ok (g "family_name"),
      restTok (g "name"), restTok (g "displayName"), restTok (g "fullName")]
    let fl1 ← (if !(truthy fn0) && !(truthy ln0) then
        nestedNameLoop kvs fn0 ln0 ["patient", "user", "person", "profile"]
      else .ok (fn0, ln0))
    let fl2 :=
      if !(truthy fl1.1) && !(truthy fl1.2)
          && (hasKey kvs "first_name" || hasKey kvs "last_name") then
        (pyOrChain [g "first_name", g "firstName", .str ""],
         pyOrChain [g "last_name", g "lastName", .str ""])
      else fl1
    let dob0 :=
      match patientNested with
      | some np => pyOrChain [objGet np "dob" .none, objGet np "dateOfBirth" .none,
          objGet np "date_of_birth" .none, objGet np "birthDate" .none,
          objGet np "birth_date" .none, .str ""]
      | Option.none => .str ""
    let dob1 := if truthy dob0 then dob0
      else pyOrChain [g "dob", g "dateOfBirth", g "date_of_birth",
        g "birthDate", g "birth_date", .str ""]
    let dobF ← dobConvertStep dob1
    let gen0 :=
      match patientNested with
      | some np => pyOrChain [objGet np "gender" .none, objGet np "sex" .none, .str ""]
      | Option.none => .str ""
    let gen1 := if truthy gen0 then gen0 else pyOrChain [g "gender", g "sex", .str ""]
    let genF :=
      if truthy gen1 then
        let gu := toUpperStr (pyStr gen1)
        if startsWithL gu.data ("F".data) then PyVal.str "F"
        else if startsWithL gu.data ("M".data) then PyVal.str "M"
        else PyVal.str ""
      else gen1
    let room0 :=
      match patientNested with
      | some np => pyOrChain [objGet np "room" .none, objGet np "roomNumber" .none,
          objGet np "room_number" .none, .str ""]
      | Option.none => .str ""
    let room1 := if truthy room0 then room0
      else if truthy (g "room") then .str (pyStr (g "room"))
      else if truthy (g "roomNumber") then .str (pyStr (g "roomNumber"))
      else if truthy (g "room_number") then .str (pyStr (g "room_number"))
      else if truthy (g "room_id") then .str (pyStr (g "room_id"))
      else .str ""
    .ok (some ⟨pyStr patient_id, pyStr solv_id, pyStr location,
      pyStr fl2.1, pyStr fl2.2, pyStr dobF, pyStr genF, pyStr room1⟩)
  | _ => .ok Option.none

/-- C10: for every input that is not a dictionary (a list, a string, a number,
None, ...), `normalize_patient_data` returns None without raising; a
normalized record is produced only for dictionary inputs. -/
theorem c10_non_dict_returns_none (v locationId : PyVal) (index : Nat) :
    (isDictB v = false → normalize_patient_data v locationId index = .ok Option.none) ∧
    (∀ r, normalize_patient_data v locationId index = .ok (some r) → isDictB v = true) := by
  cases v with
  | obj kvs => exact ⟨fun h => absurd h (by simp [isDictB]), fun r _ => rfl⟩
  | none => exact ⟨fun _ => rfl, fun r h => Option.noConfusion (Except.ok.inj h)⟩
  | str s => exact ⟨fun _ => rfl, fun r h => Option.noConfusion (Except.ok.inj h)⟩
  | int n => exact ⟨fun _ => rfl, fun r h => Option.noConfusion (Except.ok.inj h)⟩
  | bool b => exact ⟨fun _ => rfl, fun r h => Option.noConfusion (Except.ok.inj h)⟩
  | arr xs => exact ⟨fun _ => rfl, fun r h => Option.noConfusion (Except.ok.inj h)⟩
  | datetime t => exact ⟨fun _ => rfl, fun r h => Option.noConfusion (Except.ok.inj h)⟩

/-- Witness for C10: a string input and a list input both yield None (and a
dict input does yield a record, showing the dict path is live). -/
theorem c10_witness :
    normalize_patient_data (.str "hello") (.str "L") 0 = .ok Option.none ∧
    normalize_patient_data (.arr [.int 1]) (.str "L") 3 = .ok Option.none ∧
    normalize_patient_data (.obj [("firstName", .str "Ann")]) (.str "L") 0
      = .ok (some ⟨"exp-1", "solv-1", "L", "Ann", "", "", "", ""⟩) :=
  ⟨(c10_non_dict_returns_none (.str "hello") (.str "L") 0).1 rfl,
   (c10_non_dict_returns_none (.arr [.int 1]) (.str "L") 3).1 rfl,
   by decide⟩
